import Mathlib

/-!
Shallow embedding of the risk-and-performance analytics engine of the
FinRobot portfolio dashboard.

The embedded code:
  * `vercel-patrimonio/lib/riskAnalysis.ts` — pure risk analytics
    (volatility, Sharpe, beta, VaR, concentration, drawdown, risk score,
    and the `calculateRiskMetrics` aggregate).
  * `vercel-patrimonio/app/api/historical-metrics/route.ts` — the
    performance reconciliation engine (YTD / yesterday baselines per
    position, aggregate return metrics).
  * the recalculation path of `usePerformanceMetrics` in
    `vercel-patrimonio/lib/usePerformanceMetrics.ts`.

JavaScript numbers are modelled as exact rationals (ℚ) where the source
only adds, multiplies and divides, and as reals (ℝ) where `Math.sqrt`
enters.  `Math.round x` is modelled as `⌊x + 1/2⌋` (round half up), which
is the JS semantics.  TypeScript `Record` objects are modelled as
association lists in `Object.entries` order.  Asset-class keys keep the
source's Spanish names: `renta_variable` = equities, `renta_fija` =
fixed income, `oro` = gold, `cripto` = crypto, `liquidez` = cash.
-/

namespace FinRobot

/-- `RiskCategory` from riskAnalysis.ts: 'Low' | 'Moderate' | 'High' | 'Very High'. -/
inductive RiskCategory where
  | low
  | moderate
  | high
  | veryHigh
deriving DecidableEq, Repr

/-- `DistributionData` from riskAnalysis.ts (`actual`, `objetivo`, `valor`). -/
structure DistributionData where
  actual : ℚ
  objetivo : ℚ
  valor : ℚ
deriving DecidableEq, Repr

/-- `PositionData` from riskAnalysis.ts (`valor`, optional `nombre`/`ticker`). -/
structure PositionData where
  valor : ℚ
  nombre : Option String := none
  ticker : Option String := none
deriving DecidableEq, Repr

/-- A `Record<string, DistributionData>` object, in `Object.entries` order. -/
abbrev Distribution := List (String × DistributionData)

/-- A `Record<string, PositionData>` object, in `Object.entries` order. -/
abbrev Positions := List (String × PositionData)

/-- `VOLATILITY_BY_CLASS` lookup table from riskAnalysis.ts. -/
def VOLATILITY_BY_CLASS : List (String × ℚ) :=
  [("renta_variable", 18), ("renta_fija", 5), ("oro", 15), ("cripto", 60),
   ("liquidez", 1/2)]

/-- `BETA_BY_CLASS` lookup table from riskAnalysis.ts. -/
def BETA_BY_CLASS : List (String × ℚ) :=
  [("renta_variable", 1), ("renta_fija", 1/10), ("oro", 0), ("cripto", 3/2),
   ("liquidez", 0)]

/-- `RISK_FREE_RATE = 3.5` from riskAnalysis.ts. -/
def RISK_FREE_RATE : ℚ := 35/10

/-- `VOLATILITY_BY_CLASS[assetClass] ?? 15.0`. -/
def volatilityByClass (assetClass : String) : ℚ :=
  (VOLATILITY_BY_CLASS.lookup assetClass).getD 15

/-- `BETA_BY_CLASS[assetClass] ?? 1.0`. -/
def betaByClass (assetClass : String) : ℚ :=
  (BETA_BY_CLASS.lookup assetClass).getD 1

/-- The loop body sum of `calculatePortfolioVolatility`:
`volatilitySquared += Math.pow(weight * classVolatility, 2)` over
`Object.entries(distribution)`, with `weight = (data.actual || 0) / 100`
(on a number field `x || 0` is `x`: it replaces only `0` by `0`). -/
def volatilitySquared (distribution : Distribution) : ℚ :=
  distribution.foldl
    (fun acc e => acc + (e.2.actual / 100 * volatilityByClass e.1) ^ 2) 0

/-- `calculatePortfolioVolatility` from riskAnalysis.ts:
`Math.sqrt(volatilitySquared) * 1.3`. -/
noncomputable def calculatePortfolioVolatility (distribution : Distribution) : ℝ :=
  Real.sqrt (volatilitySquared distribution : ℚ) * 1.3

/-- `calculateSharpeRatio` from riskAnalysis.ts. -/
noncomputable def calculateSharpeRatio (returnPct volatility : ℝ) : ℝ :=
  if volatility ≤ 0 then 0 else (returnPct - (RISK_FREE_RATE : ℝ)) / volatility

/-- `calculatePortfolioBeta` from riskAnalysis.ts:
`totalBeta += weight * classBeta` over `Object.entries(distribution)`. -/
def calculatePortfolioBeta (distribution : Distribution) : ℚ :=
  distribution.foldl (fun acc e => acc + e.2.actual / 100 * betaByClass e.1) 0

/-- `calculateVaR95` from riskAnalysis.ts:
`(volatility / Math.sqrt(252)) * 1.645`. -/
noncomputable def calculateVaR95 (volatility : ℝ) : ℝ :=
  volatility / Real.sqrt 252 * 1.645

/-- Descending sort `values.sort((a, b) => b - a)` of
`calculateConcentration`, modelled as an insertion sort with the
relation `b ≤ a`. -/
def sortDesc (values : List ℚ) : List ℚ :=
  values.insertionSort (fun a b => b ≤ a)

/-- `calculateConcentration` from riskAnalysis.ts. -/
def calculateConcentration (positions : Positions) : ℚ :=
  if positions.isEmpty then 0
  else
    let values := positions.map (fun p => p.2.valor)
    let total := values.sum
    if total ≤ 0 then 0
    else ((sortDesc values).take 3).sum / total * 100

/-- `estimateMaxDrawdown` from riskAnalysis.ts:
`Math.min(volatility / Math.sqrt(12) * 4 * (0.5 + 0.5 * beta), 80)`. -/
noncomputable def estimateMaxDrawdown (volatility beta : ℝ) : ℝ :=
  min (volatility / Real.sqrt 12 * 4 * (0.5 + 0.5 * beta)) 80

/-- JavaScript `Math.round`: round half towards `+∞`. -/
noncomputable def jsRound (x : ℝ) : ℤ := ⌊x + 1/2⌋

/-- The `{ score, category }` result of `calculateRiskScore`. -/
structure ScoreResult where
  score : ℤ
  category : RiskCategory
deriving DecidableEq, Repr

/-- `calculateRiskScore` from riskAnalysis.ts. -/
noncomputable def calculateRiskScore (volatility beta concentration : ℝ) :
    ScoreResult :=
  let volatilityScore := min (volatility / 5) 10
  let betaScore := min (beta * 5) 10
  let concentrationScore := min (concentration / 10) 10
  let totalScore :=
    volatilityScore * 0.5 + betaScore * 0.3 + concentrationScore * 0.2
  let score := max 1 (min 10 (jsRound totalScore))
  { score := score
    category :=
      if score ≤ 3 then .low
      else if score ≤ 5 then .moderate
      else if score ≤ 7 then .high
      else .veryHigh }

/-- `Math.round(x * 100) / 100` — round to 2 decimal places. -/
noncomputable def round2 (x : ℝ) : ℝ := (jsRound (x * 100) : ℝ) / 100

/-- The `RiskMetrics` output record from riskAnalysis.ts. -/
structure RiskMetrics where
  annualVolatility : ℝ
  sharpeRatio : ℝ
  maxDrawdown : ℝ
  beta : ℝ
  var95 : ℝ
  concentrationTop3 : ℝ
  riskScore : ℤ
  riskCategory : RiskCategory

/-- `calculateRiskMetrics` from riskAnalysis.ts: the aggregate entry
point.  It is a total function — no exception can be raised. -/
noncomputable def calculateRiskMetrics (distribution : Distribution)
    (positions : Positions) (ytdReturn : ℝ := 0) : RiskMetrics :=
  let volatility := calculatePortfolioVolatility distribution
  let sharpe := calculateSharpeRatio ytdReturn volatility
  let beta : ℝ := (calculatePortfolioBeta distribution : ℚ)
  let var95 := calculateVaR95 volatility
  let concentration : ℝ := (calculateConcentration positions : ℚ)
  let maxDrawdown := estimateMaxDrawdown volatility beta
  let sc := calculateRiskScore volatility beta concentration
  { annualVolatility := round2 volatility
    sharpeRatio := round2 sharpe
    maxDrawdown := round2 maxDrawdown
    beta := round2 beta
    var95 := round2 var95
    concentrationTop3 := round2 concentration
    riskScore := sc.score
    riskCategory := sc.category }

/-! ## Performance reconciliation engine
(`app/api/historical-metrics/route.ts` and the recalculation path of
`usePerformanceMetrics`).

`Date` values are modelled as integer timestamps in milliseconds.
A date-only string `'YYYY-MM-DD'` parses to UTC midnight of its calendar
day, so its timestamp is `day * msPerDay`; the walked-back `yesterday`
`Date` keeps the current wall-clock time of day, so its timestamp is
`day * msPerDay + timeOfDay` with `0 ≤ timeOfDay < msPerDay`.
The Yahoo price fetchers are oracles `String → … → Option ℚ`
(`none` = HTTP failure, missing data or thrown exception). -/

/-- Milliseconds per day. -/
def msPerDay : ℤ := 86400000

/-- Timestamp of `new Date('YYYY-MM-DD')`: UTC midnight of calendar day
`day` (days since epoch). -/
def dateOnlyTs (day : ℤ) : ℤ := day * msPerDay

/-- Position currency (`'EUR' | 'USD'`). -/
inductive Currency where
  | eur
  | usd
deriving DecidableEq, Repr

/-- One entry of `PORTFOLIO_POSITIONS` in route.ts.  `purchaseTs` is the
timestamp of `new Date(position.fechaCompra)`. -/
structure PortfolioPosition where
  id : String
  ticker : String
  shares : ℚ
  avgCost : ℚ
  totalCost : ℚ
  purchaseTs : ℤ
  currency : Currency
  currentValue : Option ℚ := none
deriving DecidableEq, Repr

/-- `EUR_USD_RATE = 0.92` from route.ts `GET`. -/
def EUR_USD_RATE : ℚ := 92/100

/-- `NO_YAHOO_TICKERS` from route.ts. -/
def NO_YAHOO_TICKERS : List String :=
  ["MYSP500", "WFECTR", "CRYPTO", "CASH", "VWSC", "VJPN", "VPAC", "VGOV",
   "VCEB", "VUSC", "VINF", "IEAG", "VGAB"]

/-- `YAHOO_SYMBOL_MAP` from route.ts. -/
def YAHOO_SYMBOL_MAP : List (String × String) :=
  [("BRK.B", "BRK-B"), ("LLY", "LLY"), ("CEG", "CEG"), ("GEV", "GEV"),
   ("CSPX", "CSPX.L"), ("EXXY", "EXXY.DE"), ("IS3V", "IGIL.L"),
   ("IS0E", "IAUP.L"), ("GLDM", "GDX"), ("VUSA", "VUAA.L"),
   ("VEUR", "VEUR.AS"), ("VFEM", "VFEM.L"), ("BTC", "BTC-EUR"),
   ("ETH", "ETH-EUR")]

/-- `NO_YAHOO_TICKERS.includes(ticker) ? null : YAHOO_SYMBOL_MAP[ticker]`
(an absent map entry is `undefined`, i.e. no symbol). -/
def yahooSymbolFor (ticker : String) : Option String :=
  if ticker ∈ NO_YAHOO_TICKERS then none else YAHOO_SYMBOL_MAP.lookup ticker

/-- `const existedBeforeYTD = purchaseDate < ytdBase` from route.ts. -/
def existedBeforeYTD (p : PortfolioPosition) (ytdBaseTs : ℤ) : Bool :=
  p.purchaseTs < ytdBaseTs

/-- `const existedYesterday = purchaseDate <= yesterday` from route.ts. -/
def existedYesterday (p : PortfolioPosition) (yesterdayTs : ℤ) : Bool :=
  p.purchaseTs ≤ yesterdayTs

/-- Currency conversion of a fetched per-share price into a position
value: `price * EUR_USD_RATE * shares` for USD, `price * shares` for EUR. -/
def convertedValue (p : PortfolioPosition) (price : ℚ) : ℚ :=
  if p.currency = Currency.usd then price * EUR_USD_RATE * p.shares
  else price * p.shares

/-- The per-position `ytdBaseValue` of the route.ts `GET` loop.
`fetchHist sym date` is the `getHistoricalPrice` oracle; the source
guards the fetched price with JS truthiness (`if (jan1Price)`), so `0`
also falls back to cost. -/
def ytdBaseValue (fetchHist : String → String → Option ℚ)
    (ytdBaseTs : ℤ) (ytdBaseDate : String) (p : PortfolioPosition) : ℚ :=
  if ¬ existedBeforeYTD p ytdBaseTs then p.totalCost
  else
    match yahooSymbolFor p.ticker with
    | some sym =>
      match fetchHist sym ytdBaseDate with
      | some price => if price = 0 then p.totalCost else convertedValue p price
      | none => p.totalCost
    | none => p.totalCost

/-- The per-position `yesterdayBaseValue` of the route.ts `GET` loop. -/
def yesterdayBaseValue (fetchHist : String → String → Option ℚ)
    (yesterdayTs : ℤ) (yesterdayStr : String) (p : PortfolioPosition) : ℚ :=
  if ¬ existedYesterday p yesterdayTs then p.totalCost
  else
    match yahooSymbolFor p.ticker with
    | some sym =>
      match fetchHist sym yesterdayStr with
      | some price => if price = 0 then p.totalCost else convertedValue p price
      | none => p.totalCost
    | none => p.totalCost

/-- JS `x || d` on an optional numeric field: the value when present and
nonzero, otherwise the default. -/
def jsOr (o : Option ℚ) (d : ℚ) : ℚ :=
  match o with
  | some v => if v = 0 then d else v
  | none => d

/-- The per-position `currentPrice` of the route.ts `GET` loop.
`fetchLive` is the `getCurrentPrice` oracle (also truthiness-guarded). -/
def currentPriceOf (fetchLive : String → Option ℚ) (p : PortfolioPosition) : ℚ :=
  match yahooSymbolFor p.ticker with
  | some sym =>
    match fetchLive sym with
    | some live =>
      if live = 0 then jsOr p.currentValue (p.avgCost * p.shares)
      else convertedValue p live
    | none => jsOr p.currentValue (p.avgCost * p.shares)
  | none =>
    if p.ticker = "CASH" then 188732
    else if p.ticker = "CRYPTO" then 97321
    else jsOr p.currentValue p.totalCost

/-- The `metrics` object returned by the route.ts `GET`, and (a subset
of) `PerformanceMetrics` set by `usePerformanceMetrics`. -/
structure HistMetrics where
  totalReturn : ℚ
  totalReturnPct : ℚ
  totalCost : ℚ
  ytdReturn : ℚ
  ytdReturnPct : ℚ
  ytdStartValue : ℚ
  dailyReturn : ℚ
  dailyReturnPct : ℚ
  yesterdayValue : ℚ
  currentValue : ℚ
deriving DecidableEq, Repr

/-- The route.ts `GET` computation: accumulate the four totals over all
positions, then compute the final metrics with the three guarded
percentages.  Total for every fetch oracle — a `none` (failed) fetch for
any position never aborts the computation. -/
def computeHistoricalMetrics (fetchHist : String → String → Option ℚ)
    (fetchLive : String → Option ℚ) (ytdBaseTs yesterdayTs : ℤ)
    (ytdBaseDate yesterdayStr : String)
    (positions : List PortfolioPosition) : HistMetrics :=
  let ytdStartValue :=
    (positions.map (ytdBaseValue fetchHist ytdBaseTs ytdBaseDate)).sum
  let yesterdayValue :=
    (positions.map (yesterdayBaseValue fetchHist yesterdayTs yesterdayStr)).sum
  let currentValue := (positions.map (currentPriceOf fetchLive)).sum
  let totalCost := (positions.map (fun p => p.totalCost)).sum
  let ytdReturn := currentValue - ytdStartValue
  let ytdReturnPct :=
    if ytdStartValue > 0 then ytdReturn / ytdStartValue * 100 else 0
  let dailyReturn := currentValue - yesterdayValue
  let dailyReturnPct :=
    if yesterdayValue > 0 then dailyReturn / yesterdayValue * 100 else 0
  let totalReturn := currentValue - totalCost
  let totalReturnPct :=
    if totalCost > 0 then totalReturn / totalCost * 100 else 0
  { totalReturn := totalReturn
    totalReturnPct := totalReturnPct
    totalCost := totalCost
    ytdReturn := ytdReturn
    ytdReturnPct := ytdReturnPct
    ytdStartValue := ytdStartValue
    dailyReturn := dailyReturn
    dailyReturnPct := dailyReturnPct
    yesterdayValue := yesterdayValue
    currentValue := currentValue }

/-- The recalculation path of `usePerformanceMetrics` (lines 314–336 of
`usePerformanceMetrics.ts`): given the API's `ytdStartValue` and
`yesterdayValue` plus the live `currentValue` and `totalCost`, it
recomputes the metrics.  Note that `totalReturnPct` is computed as
`((currentValue - totalCost) / totalCost) * 100` with NO positivity
guard on `totalCost`, unlike `ytdReturnPct` and `dailyReturnPct`
(`bestDay`/`worstDay` are always `null` and are omitted here). -/
def recalcPerformanceMetrics (ytdStartValue yesterdayValue currentValue
    totalCost : ℚ) : HistMetrics :=
  let ytdReturn := currentValue - ytdStartValue
  let ytdReturnPct :=
    if ytdStartValue > 0 then ytdReturn / ytdStartValue * 100 else 0
  let dailyReturn := currentValue - yesterdayValue
  let dailyReturnPct :=
    if yesterdayValue > 0 then dailyReturn / yesterdayValue * 100 else 0
  { totalReturn := currentValue - totalCost
    totalReturnPct := (currentValue - totalCost) / totalCost * 100
    totalCost := totalCost
    ytdReturn := ytdReturn
    ytdReturnPct := ytdReturnPct
    ytdStartValue := ytdStartValue
    dailyReturn := dailyReturn
    dailyReturnPct := dailyReturnPct
    yesterdayValue := yesterdayValue
    currentValue := currentValue }

/-- The guarded percentage-change formula of the spec:
`delta/baseline×100` when the baseline is strictly positive, else `0`. -/
def specPct (baseline current : ℚ) : ℚ :=
  if baseline > 0 then (current - baseline) / baseline * 100 else 0

/-! ## Shared helper lemmas -/

/-- A fold accumulating `acc + f x` is the initial value plus the sum of
the mapped list. -/
lemma foldl_add_map_sum {α : Type} (f : α → ℚ) (init : ℚ) (l : List α) :
    l.foldl (fun acc x => acc + f x) init = init + (l.map f).sum := by
  induction l generalizing init with
  | nil => simp
  | cons a t ih => simp [ih, add_assoc]

lemma calculatePortfolioBeta_eq_sum (d : Distribution) :
    calculatePortfolioBeta d =
      (d.map (fun e => e.2.actual / 100 * betaByClass e.1)).sum := by
  rw [calculatePortfolioBeta, foldl_add_map_sum, zero_add]

lemma volatilitySquared_eq_sum (d : Distribution) :
    volatilitySquared d =
      (d.map (fun e => (e.2.actual / 100 * volatilityByClass e.1) ^ 2)).sum := by
  rw [volatilitySquared, foldl_add_map_sum, zero_add]

lemma calculatePortfolioVolatility_empty : calculatePortfolioVolatility [] = 0 := by
  simp [calculatePortfolioVolatility, volatilitySquared]

lemma calculatePortfolioVolatility_nonneg (d : Distribution) :
    0 ≤ calculatePortfolioVolatility d :=
  mul_nonneg (Real.sqrt_nonneg _) (by norm_num)

lemma estimateMaxDrawdown_vol_zero (beta : ℝ) : estimateMaxDrawdown 0 beta = 0 := by
  simp [estimateMaxDrawdown]

lemma calculateVaR95_zero : calculateVaR95 0 = 0 := by
  simp [calculateVaR95]

lemma round2_zero : round2 0 = 0 := by
  norm_num [round2, jsRound]

lemma calculateSharpeRatio_nonpos (returnPct volatility : ℝ)
    (h : volatility ≤ 0) : calculateSharpeRatio returnPct volatility = 0 := by
  simp [calculateSharpeRatio, h]

lemma calculateRiskScore_zero :
    calculateRiskScore 0 0 0 = ⟨1, RiskCategory.low⟩ := by
  norm_num [calculateRiskScore, jsRound, min_def, max_def]

lemma calculatePortfolioBeta_empty : calculatePortfolioBeta [] = 0 := rfl

lemma calculateConcentration_empty : calculateConcentration [] = 0 := rfl

/-- A list of nonnegative rationals that are not all zero has a
positive sum. -/
lemma sum_pos_of_nonneg_not_all_zero (l : List ℚ)
    (hn : ∀ x ∈ l, 0 ≤ x) (hz : ¬ ∀ x ∈ l, x = 0) : 0 < l.sum := by
  induction l with
  | nil => exact absurd (by simp) hz
  | cons a t ih =>
    have ha : 0 ≤ a := hn a (List.mem_cons_self a t)
    have htn : ∀ x ∈ t, 0 ≤ x := fun x hx => hn x (List.mem_cons_of_mem a hx)
    have hts : 0 ≤ t.sum := List.sum_nonneg htn
    rw [List.sum_cons]
    rcases eq_or_lt_of_le ha with hae | hae
    · have htz : ¬ ∀ x ∈ t, x = 0 := by
        intro hall
        exact hz (by
          intro x hx
          rcases List.mem_cons.mp hx with h | h
          · rw [h, ← hae]
          · exact hall x h)
      have := ih htn htz
      linarith
    · linarith

/-! ## Claim theorems -/

/-- Claim C3: for every distribution, `calculatePortfolioVolatility`
returns `sqrt(Σ ((actualPct/100) · classVolatility)²) · 1.3`, where the
class volatility is 18.0 for equities (`renta_variable`), 5.0 for fixed
income (`renta_fija`), 15.0 for gold (`oro`), 60.0 for crypto
(`cripto`), 0.5 for cash (`liquidez`), and 15.0 for any unknown class;
the result is nonnegative for every distribution, exactly 0 for the
empty distribution, and exactly `18.0 · 1.3 = 23.4` for a distribution
allocating 100% to equities. -/
theorem claim_C3_volatility :
    (∀ d : Distribution, calculatePortfolioVolatility d =
      Real.sqrt ((d.map
        (fun e => (e.2.actual / 100 * volatilityByClass e.1) ^ 2)).sum : ℚ)
        * 1.3) ∧
    volatilityByClass "renta_variable" = 18 ∧
    volatilityByClass "renta_fija" = 5 ∧
    volatilityByClass "oro" = 15 ∧
    volatilityByClass "cripto" = 60 ∧
    volatilityByClass "liquidez" = 1/2 ∧
    volatilityByClass "unknown_class" = 15 ∧
    (∀ d : Distribution, 0 ≤ calculatePortfolioVolatility d) ∧
    calculatePortfolioVolatility [] = 0 ∧
    calculatePortfolioVolatility
      [("renta_variable", { actual := 100, objetivo := 100, valor := 0 })]
      = 23.4 := by
  refine ⟨fun d => ?_, rfl, rfl, rfl, rfl, rfl, rfl,
    calculatePortfolioVolatility_nonneg, calculatePortfolioVolatility_empty, ?_⟩
  · rw [calculatePortfolioVolatility, volatilitySquared_eq_sum]
  · have hrv : volatilityByClass "renta_variable" = 18 := rfl
    have h : volatilitySquared
        [("renta_variable", { actual := 100, objetivo := 100, valor := 0 })]
        = 324 := by
      rw [volatilitySquared_eq_sum]; norm_num [hrv]
    rw [calculatePortfolioVolatility, h]
    rw [show ((324:ℚ):ℝ) = 18 ^ 2 by norm_num, Real.sqrt_sq (by norm_num)]
    norm_num

/-- Claim C4: `calculatePortfolioBeta` is the linear weighted sum of
`(actualPct/100) · classBeta` with class betas 1.0 (equities), 0.1
(fixed income), 0.0 (gold), 1.5 (crypto), 0.0 (cash), 1.0 (unknown),
with no inflation factor; 100% fixed income gives beta 0.1, 100% crypto
gives 1.5, and 50/50 gold/cash gives 0. -/
theorem claim_C4_beta :
    (∀ d : Distribution, calculatePortfolioBeta d =
      (d.map (fun e => e.2.actual / 100 * betaByClass e.1)).sum) ∧
    betaByClass "renta_variable" = 1 ∧
    betaByClass "renta_fija" = 1/10 ∧
    betaByClass "oro" = 0 ∧
    betaByClass "cripto" = 3/2 ∧
    betaByClass "liquidez" = 0 ∧
    betaByClass "unknown_class" = 1 ∧
    calculatePortfolioBeta
      [("renta_fija", { actual := 100, objetivo := 100, valor := 0 })] = 1/10 ∧
    calculatePortfolioBeta
      [("cripto", { actual := 100, objetivo := 100, valor := 0 })] = 3/2 ∧
    calculatePortfolioBeta
      [("oro", { actual := 50, objetivo := 50, valor := 0 }),
       ("liquidez", { actual := 50, objetivo := 50, valor := 0 })] = 0 := by
  have hrf : betaByClass "renta_fija" = 1/10 := rfl
  have hcr : betaByClass "cripto" = 3/2 := rfl
  have hor : betaByClass "oro" = 0 := rfl
  have hli : betaByClass "liquidez" = 0 := rfl
  refine ⟨calculatePortfolioBeta_eq_sum, rfl, rfl, rfl, rfl, rfl, rfl, ?_, ?_, ?_⟩
  · rw [calculatePortfolioBeta_eq_sum]; norm_num [hrf]
  · rw [calculatePortfolioBeta_eq_sum]; norm_num [hcr]
  · rw [calculatePortfolioBeta_eq_sum]; norm_num [hor, hli]

/-- Claim C6: `estimateMaxDrawdown volatility beta` equals
`min (volatility / sqrt 12 · 4 · (0.5 + 0.5·beta)) 80`; for nonnegative
volatility and beta it is monotone non-decreasing in each argument, it
never exceeds 80, and it is 0 at volatility 0. -/
theorem claim_C6_drawdown :
    (∀ v b : ℝ, estimateMaxDrawdown v b =
      min (v / Real.sqrt 12 * 4 * (0.5 + 0.5 * b)) 80) ∧
    (∀ b v₁ v₂ : ℝ, 0 ≤ v₁ → 0 ≤ b → v₁ ≤ v₂ →
      estimateMaxDrawdown v₁ b ≤ estimateMaxDrawdown v₂ b) ∧
    (∀ v b₁ b₂ : ℝ, 0 ≤ v → 0 ≤ b₁ → b₁ ≤ b₂ →
      estimateMaxDrawdown v b₁ ≤ estimateMaxDrawdown v b₂) ∧
    (∀ v b : ℝ, estimateMaxDrawdown v b ≤ 80) ∧
    (∀ b : ℝ, estimateMaxDrawdown 0 b = 0) := by
  refine ⟨fun _ _ => rfl, ?_, ?_, fun v b => min_le_right _ _,
    estimateMaxDrawdown_vol_zero⟩
  · intro b v₁ v₂ _ hb hv
    unfold estimateMaxDrawdown
    gcongr
  · intro v b₁ b₂ hv _ hb
    unfold estimateMaxDrawdown
    gcongr

/-- Claim C7: `calculateVaR95 volatility` equals
`volatility / sqrt 252 · 1.645` for every volatility, is homogeneous
(`VaR95(2x) = 2 · VaR95(x)` for every positive x), and is 0 at 0. -/
theorem claim_C7_var95 :
    (∀ v : ℝ, calculateVaR95 v = v / Real.sqrt 252 * 1.645) ∧
    (∀ x : ℝ, 0 < x → calculateVaR95 (2 * x) = 2 * calculateVaR95 x) ∧
    calculateVaR95 0 = 0 := by
  refine ⟨fun _ => rfl, fun x _ => ?_, calculateVaR95_zero⟩
  unfold calculateVaR95
  ring

/-- Claim C1: every numeric field of the `RiskMetrics` record returned
by `calculateRiskMetrics` equals the corresponding sub-function result
rounded to 2 decimal places (`round(x·100)/100`), for every
distribution, positions map and realized-return input; and on the empty
distribution and empty positions map the output is all-zero with
riskScore 1 and riskCategory Low.  `calculateRiskMetrics` is a total
function, so no exception is ever raised. -/
theorem claim_C1_riskMetrics :
    (∀ (d : Distribution) (pos : Positions) (r : ℝ),
      (calculateRiskMetrics d pos r).annualVolatility =
        round2 (calculatePortfolioVolatility d) ∧
      (calculateRiskMetrics d pos r).sharpeRatio =
        round2 (calculateSharpeRatio r (calculatePortfolioVolatility d)) ∧
      (calculateRiskMetrics d pos r).maxDrawdown =
        round2 (estimateMaxDrawdown (calculatePortfolioVolatility d)
          ((calculatePortfolioBeta d : ℚ) : ℝ)) ∧
      (calculateRiskMetrics d pos r).beta =
        round2 ((calculatePortfolioBeta d : ℚ) : ℝ) ∧
      (calculateRiskMetrics d pos r).var95 =
        round2 (calculateVaR95 (calculatePortfolioVolatility d)) ∧
      (calculateRiskMetrics d pos r).concentrationTop3 =
        round2 ((calculateConcentration pos : ℚ) : ℝ)) ∧
    (∀ r : ℝ,
      (calculateRiskMetrics [] [] r).annualVolatility = 0 ∧
      (calculateRiskMetrics [] [] r).sharpeRatio = 0 ∧
      (calculateRiskMetrics [] [] r).beta = 0 ∧
      (calculateRiskMetrics [] [] r).var95 = 0 ∧
      (calculateRiskMetrics [] [] r).concentrationTop3 = 0 ∧
      (calculateRiskMetrics [] [] r).maxDrawdown = 0 ∧
      (calculateRiskMetrics [] [] r).riskScore = 1 ∧
      (calculateRiskMetrics [] [] r).riskCategory = RiskCategory.low) := by
  have hv : calculatePortfolioVolatility [] = 0 :=
    calculatePortfolioVolatility_empty
  have hb : ((calculatePortfolioBeta [] : ℚ) : ℝ) = 0 := by
    rw [calculatePortfolioBeta_empty]; norm_num
  have hc : ((calculateConcentration [] : ℚ) : ℝ) = 0 := by
    rw [calculateConcentration_empty]; norm_num
  refine ⟨fun d pos r => ⟨rfl, rfl, rfl, rfl, rfl, rfl⟩, fun r => ?_⟩
  refine ⟨?_, ?_, ?_, ?_, ?_, ?_, ?_, ?_⟩
  · show round2 (calculatePortfolioVolatility []) = 0
    rw [hv, round2_zero]
  · show round2 (calculateSharpeRatio r (calculatePortfolioVolatility [])) = 0
    rw [hv, calculateSharpeRatio_nonpos r 0 le_rfl, round2_zero]
  · show round2 ((calculatePortfolioBeta [] : ℚ) : ℝ) = 0
    rw [hb, round2_zero]
  · show round2 (calculateVaR95 (calculatePortfolioVolatility [])) = 0
    rw [hv, calculateVaR95_zero, round2_zero]
  · show round2 ((calculateConcentration [] : ℚ) : ℝ) = 0
    rw [hc, round2_zero]
  · show round2 (estimateMaxDrawdown (calculatePortfolioVolatility [])
      ((calculatePortfolioBeta [] : ℚ) : ℝ)) = 0
    rw [hv, estimateMaxDrawdown_vol_zero, round2_zero]
  · show (calculateRiskScore (calculatePortfolioVolatility [])
      ((calculatePortfolioBeta [] : ℚ) : ℝ)
      ((calculateConcentration [] : ℚ) : ℝ)).score = 1
    rw [hv, hb, hc, calculateRiskScore_zero]
  · show (calculateRiskScore (calculatePortfolioVolatility [])
      ((calculatePortfolioBeta [] : ℚ) : ℝ)
      ((calculateConcentration [] : ℚ) : ℝ)).category = RiskCategory.low
    rw [hv, hb, hc, calculateRiskScore_zero]

/-- The risk-score formula as the spec words it:
`round(0.5·min(vol/5,10) + 0.3·min(beta·5,10) + 0.2·min(conc/10,10))`
clamped to `[1,10]`.  Compared against the source's
`calculateRiskScore` in claim C2. -/
noncomputable def specRiskScore (v b c : ℝ) : ℤ :=
  max 1 (min 10 (jsRound
    (0.5 * min (v / 5) 10 + 0.3 * min (b * 5) 10 + 0.2 * min (c / 10) 10)))

/-- Claim C2: for all real inputs, `calculateRiskScore` returns the
spec formula `round(0.5·volScore + 0.3·betaScore + 0.2·concScore)`
clamped to the integer range `[1,10]`, with category Low for score ≤ 3,
Moderate for ≤ 5, High for ≤ 7, Very High otherwise; in particular
`calculateRiskScore 0 0 0 = {score 1, Low}` and
`calculateRiskScore 100 10 100 = {score 10, Very High}`. -/
theorem claim_C2_riskScore :
    (∀ v b c : ℝ, (calculateRiskScore v b c).score = specRiskScore v b c) ∧
    (∀ v b c : ℝ, 1 ≤ (calculateRiskScore v b c).score ∧
      (calculateRiskScore v b c).score ≤ 10) ∧
    (∀ v b c : ℝ, (calculateRiskScore v b c).category =
      if (calculateRiskScore v b c).score ≤ 3 then RiskCategory.low
      else if (calculateRiskScore v b c).score ≤ 5 then RiskCategory.moderate
      else if (calculateRiskScore v b c).score ≤ 7 then RiskCategory.high
      else RiskCategory.veryHigh) ∧
    calculateRiskScore 0 0 0 = ⟨1, RiskCategory.low⟩ ∧
    calculateRiskScore 100 10 100 = ⟨10, RiskCategory.veryHigh⟩ := by
  refine ⟨fun v b c => ?_,
    fun v b c => ⟨le_max_left _ _, max_le (by norm_num) (min_le_left _ _)⟩,
    fun v b c => rfl, ?_, ?_⟩
  · simp only [calculateRiskScore, specRiskScore]
    congr 3
    ring
  · norm_num [calculateRiskScore, jsRound, min_def, max_def]
  · norm_num [calculateRiskScore, jsRound, min_def, max_def]

/-- Claim C5: `calculateConcentration` sorts the position values
descending (a permutation of the values, sorted non-increasingly),
takes the top 3, and returns their share of the total in percent; it is
0 on the empty map and on all-zero values, 100 on any map of at most 3
positions with positive total, and exactly 90 on four positions valued
40000, 30000, 20000, 10000. -/
theorem claim_C5_concentration :
    (∀ values : List ℚ, (sortDesc values).Perm values) ∧
    (∀ values : List ℚ, (sortDesc values).Sorted (fun a b => b ≤ a)) ∧
    (∀ pos : Positions, pos ≠ [] →
      0 < (pos.map (fun p => p.2.valor)).sum →
      calculateConcentration pos =
        ((sortDesc (pos.map (fun p => p.2.valor))).take 3).sum /
          (pos.map (fun p => p.2.valor)).sum * 100) ∧
    calculateConcentration [] = 0 ∧
    (∀ pos : Positions, (∀ e ∈ pos, e.2.valor = 0) →
      calculateConcentration pos = 0) ∧
    (∀ pos : Positions, pos.length ≤ 3 →
      0 < (pos.map (fun p => p.2.valor)).sum →
      calculateConcentration pos = 100) ∧
    (∀ pos : Positions, pos.length ≤ 3 →
      (∀ e ∈ pos, 0 ≤ e.2.valor) → ¬ (∀ e ∈ pos, e.2.valor = 0) →
      calculateConcentration pos = 100) ∧
    calculateConcentration
      [("p1", { valor := 40000 }), ("p2", { valor := 30000 }),
       ("p3", { valor := 20000 }), ("p4", { valor := 10000 })] = 90 := by
  have hperm : ∀ values : List ℚ, (sortDesc values).Perm values :=
    fun values => List.perm_insertionSort _ values
  have hformula : ∀ pos : Positions, pos ≠ [] →
      0 < (pos.map (fun p => p.2.valor)).sum →
      calculateConcentration pos =
        ((sortDesc (pos.map (fun p => p.2.valor))).take 3).sum /
          (pos.map (fun p => p.2.valor)).sum * 100 := by
    intro pos hne htot
    unfold calculateConcentration
    rw [if_neg (by simpa [List.isEmpty_iff] using hne)]
    rw [if_neg (not_le.mpr htot)]
  have hle3 : ∀ pos : Positions, pos.length ≤ 3 →
      0 < (pos.map (fun p => p.2.valor)).sum →
      calculateConcentration pos = 100 := by
    intro pos hlen htot
    have hne : pos ≠ [] := by
      intro h
      rw [h] at htot
      simp at htot
    rw [hformula pos hne htot]
    have hlen2 : (sortDesc (pos.map (fun p => p.2.valor))).length ≤ 3 := by
      rw [(hperm _).length_eq, List.length_map]
      exact hlen
    rw [List.take_of_length_le hlen2, (hperm _).sum_eq,
      div_self (ne_of_gt htot)]
    norm_num
  refine ⟨hperm, ?_, hformula, rfl, ?_, hle3, ?_, ?_⟩
  · intro values
    haveI : IsTotal ℚ (fun a b => b ≤ a) := ⟨fun a b => le_total b a⟩
    haveI : IsTrans ℚ (fun a b => b ≤ a) := ⟨fun _ _ _ h1 h2 => le_trans h2 h1⟩
    exact List.sorted_insertionSort _ values
  · intro pos hzero
    cases pos with
    | nil => rfl
    | cons p t =>
      unfold calculateConcentration
      rw [if_neg (by simp)]
      rw [if_pos]
      exact le_of_eq (List.sum_eq_zero (by
        intro x hx
        obtain ⟨e, he, hex⟩ := List.mem_map.mp hx
        rw [← hex]; exact hzero e he))
  · intro pos hlen hn hz
    refine hle3 pos hlen (sum_pos_of_nonneg_not_all_zero _ ?_ ?_)
    · intro x hx
      obtain ⟨e, he, hex⟩ := List.mem_map.mp hx
      rw [← hex]; exact hn e he
    · intro hall
      exact hz (fun e he => hall e.2.valor (List.mem_map.mpr ⟨e, he, rfl⟩))
  · have h1 : sortDesc [40000, 30000, 20000, 10000] =
        [40000, 30000, 20000, 10000] := by decide
    unfold calculateConcentration
    norm_num [sortDesc] at h1 ⊢

/-- Witness for claim C5 at concrete inputs: a two-position map with
positive total has concentration 100, via the at-most-3-positions
clause. -/
theorem claim_C5_concentration_witness :
    calculateConcentration
      [("p1", { valor := 60000 }), ("p2", { valor := 40000 })] = 100 :=
  claim_C5_concentration.2.2.2.2.2.1
    [("p1", { valor := 60000 }), ("p2", { valor := 40000 })]
    (by norm_num) (by norm_num)

/-- Witness for claim C6 at concrete inputs: the drawdown estimate at
volatility 1 is at most that at volatility 2 (beta 0), and at beta 0 it
is at most that at beta 1 (volatility 1). -/
theorem claim_C6_drawdown_witness :
    estimateMaxDrawdown 1 0 ≤ estimateMaxDrawdown 2 0 ∧
    estimateMaxDrawdown 1 0 ≤ estimateMaxDrawdown 1 1 :=
  ⟨claim_C6_drawdown.2.1 0 1 2 (by norm_num) (by norm_num) (by norm_num),
   claim_C6_drawdown.2.2.1 1 0 1 (by norm_num) (by norm_num) (by norm_num)⟩

/-- Witness for claim C7 at the concrete input x = 1. -/
theorem claim_C7_var95_witness :
    calculateVaR95 (2 * 1) = 2 * calculateVaR95 1 :=
  claim_C7_var95.2.1 1 (by norm_num)

/-- Claim C8: in the performance reconciliation engine, a position that
did not exist before the YTD baseline contributes exactly its purchase
cost (`totalCost`) to the YTD baseline total; a position that did exist
but whose historical price fetch returns `none`, or that has no mapped
Yahoo symbol, also falls back to its purchase cost; and the aggregate
metrics are produced (as the total fold of the per-position values) for
every fetch oracle — a failed fetch never aborts the computation. -/
theorem claim_C8_fallbacks :
    (∀ (fetchHist : String → String → Option ℚ) (ytdBaseTs : ℤ)
        (ytdBaseDate : String) (p : PortfolioPosition),
      (existedBeforeYTD p ytdBaseTs = false →
        ytdBaseValue fetchHist ytdBaseTs ytdBaseDate p = p.totalCost) ∧
      (∀ sym : String, existedBeforeYTD p ytdBaseTs = true →
        yahooSymbolFor p.ticker = some sym →
        fetchHist sym ytdBaseDate = none →
        ytdBaseValue fetchHist ytdBaseTs ytdBaseDate p = p.totalCost) ∧
      (yahooSymbolFor p.ticker = none →
        ytdBaseValue fetchHist ytdBaseTs ytdBaseDate p = p.totalCost)) ∧
    (∀ (fetchHist : String → String → Option ℚ)
        (fetchLive : String → Option ℚ) (ytdBaseTs yesterdayTs : ℤ)
        (ytdBaseDate yesterdayStr : String)
        (positions : List PortfolioPosition),
      (computeHistoricalMetrics fetchHist fetchLive ytdBaseTs yesterdayTs
        ytdBaseDate yesterdayStr positions).ytdStartValue =
        (positions.map (ytdBaseValue fetchHist ytdBaseTs ytdBaseDate)).sum ∧
      (computeHistoricalMetrics fetchHist fetchLive ytdBaseTs yesterdayTs
        ytdBaseDate yesterdayStr positions).yesterdayValue =
        (positions.map
          (yesterdayBaseValue fetchHist yesterdayTs yesterdayStr)).sum ∧
      (computeHistoricalMetrics fetchHist fetchLive ytdBaseTs yesterdayTs
        ytdBaseDate yesterdayStr positions).currentValue =
        (positions.map (currentPriceOf fetchLive)).sum ∧
      (computeHistoricalMetrics fetchHist fetchLive ytdBaseTs yesterdayTs
        ytdBaseDate yesterdayStr positions).totalCost =
        (positions.map (fun p => p.totalCost)).sum) := by
  refine ⟨fun fetchHist ytdBaseTs ytdBaseDate p => ⟨?_, ?_, ?_⟩,
    fun _ _ _ _ _ _ _ => ⟨rfl, rfl, rfl, rfl⟩⟩
  · intro h
    simp [ytdBaseValue, h]
  · intro sym h1 h2 h3
    simp [ytdBaseValue, h1, h2, h3]
  · intro h
    cases hf : existedBeforeYTD p ytdBaseTs <;> simp [ytdBaseValue, hf, h]

/-- Witness for claim C8 at concrete inputs: a position bought after
the baseline keeps its cost, and a position bought before the baseline
whose every fetch fails falls back to its cost. -/
theorem claim_C8_fallbacks_witness :
    ytdBaseValue (fun _ _ => none) 100 "2026-01-02"
      { id := "andbank_lly", ticker := "LLY", shares := 22,
        avgCost := 9255/10, totalCost := 20361, purchaseTs := 0,
        currency := Currency.usd } = 20361 ∧
    ytdBaseValue (fun _ _ => none) 100 "2026-01-02"
      { id := "andbank_ceg", ticker := "CEG", shares := 71,
        avgCost := 33094/100, totalCost := 23496, purchaseTs := 200,
        currency := Currency.usd } = 23496 :=
  ⟨(claim_C8_fallbacks.1 (fun _ _ => none) 100 "2026-01-02" _).2.1
      "LLY" (by decide) rfl rfl,
   (claim_C8_fallbacks.1 (fun _ _ => none) 100 "2026-01-02" _).1 (by decide)⟩

/-- Counterexample to claim C9 as stated: in the recalculation path of
`usePerformanceMetrics`, `totalReturnPct` is NOT 0 when the baseline
`totalCost` is ≤ 0 — with `totalCost = -1` and `currentValue = 1` the
code computes `(1 - (-1)) / (-1) · 100 = -200`, because that path
divides by `totalCost` without the positivity guard. -/
theorem claim_C9_counterexample :
    (recalcPerformanceMetrics 0 0 1 (-1)).totalReturnPct ≠ 0 ∧
    ((-1 : ℚ) ≤ 0) := by
  constructor
  · norm_num [recalcPerformanceMetrics]
  · norm_num

/-- Claim C9 (amended): the three percentage returns of the route
handler, and `ytdReturnPct` / `dailyReturnPct` of the
`usePerformanceMetrics` recalculation path, equal
`(currentValue − baseline) / baseline · 100` when the baseline is
strictly positive and 0 otherwise (`specPct`); the recalculation
path's `totalReturnPct`, however, is computed without the guard, as
`(currentValue − totalCost) / totalCost · 100`. -/
theorem claim_C9_guarded_percentages :
    (∀ (fetchHist : String → String → Option ℚ)
        (fetchLive : String → Option ℚ) (ytdBaseTs yesterdayTs : ℤ)
        (ytdBaseDate yesterdayStr : String)
        (positions : List PortfolioPosition),
      (computeHistoricalMetrics fetchHist fetchLive ytdBaseTs yesterdayTs
        ytdBaseDate yesterdayStr positions).ytdReturnPct =
        specPct (computeHistoricalMetrics fetchHist fetchLive ytdBaseTs
          yesterdayTs ytdBaseDate yesterdayStr positions).ytdStartValue
          (computeHistoricalMetrics fetchHist fetchLive ytdBaseTs
            yesterdayTs ytdBaseDate yesterdayStr positions).currentValue ∧
      (computeHistoricalMetrics fetchHist fetchLive ytdBaseTs yesterdayTs
        ytdBaseDate yesterdayStr positions).dailyReturnPct =
        specPct (computeHistoricalMetrics fetchHist fetchLive ytdBaseTs
          yesterdayTs ytdBaseDate yesterdayStr positions).yesterdayValue
          (computeHistoricalMetrics fetchHist fetchLive ytdBaseTs
            yesterdayTs ytdBaseDate yesterdayStr positions).currentValue ∧
      (computeHistoricalMetrics fetchHist fetchLive ytdBaseTs yesterdayTs
        ytdBaseDate yesterdayStr positions).totalReturnPct =
        specPct (computeHistoricalMetrics fetchHist fetchLive ytdBaseTs
          yesterdayTs ytdBaseDate yesterdayStr positions).totalCost
          (computeHistoricalMetrics fetchHist fetchLive ytdBaseTs
            yesterdayTs ytdBaseDate yesterdayStr positions).currentValue) ∧
    (∀ ytdStart yesterdayV currentV totalC : ℚ,
      (recalcPerformanceMetrics ytdStart yesterdayV currentV
        totalC).ytdReturnPct = specPct ytdStart currentV ∧
      (recalcPerformanceMetrics ytdStart yesterdayV currentV
        totalC).dailyReturnPct = specPct yesterdayV currentV ∧
      (recalcPerformanceMetrics ytdStart yesterdayV currentV
        totalC).totalReturnPct = (currentV - totalC) / totalC * 100) :=
  ⟨fun _ _ _ _ _ _ _ => ⟨rfl, rfl, rfl⟩, fun _ _ _ _ => ⟨rfl, rfl, rfl⟩⟩

/-- Counterexample to claim C10 as stated: `existedYesterday` is NOT
the strict precedence of the acquisition date over the previous
trading day.  A position purchased on calendar day 20467 (parsed at
UTC midnight), checked against `yesterday` = the same day 20467 at
10:00 (today being day 20468 at 10:00), gets `existedYesterday = true`
although day 20467 does not strictly precede day 20467 — the source
compares with `<=`, not `<`. -/
theorem claim_C10_counterexample :
    existedYesterday
      { id := "andbank_lly", ticker := "LLY", shares := 22,
        avgCost := 9255/10, totalCost := 20361,
        purchaseTs := dateOnlyTs 20467, currency := Currency.usd }
      (dateOnlyTs 20467 + 36000000) = true ∧
    ¬ ((20467 : ℤ) < 20467) := by
  constructor
  · simp [existedYesterday, dateOnlyTs, msPerDay]
  · norm_num

/-- Claim C10 (amended): `existedBeforeYTD` is true iff the purchase
timestamp strictly precedes the YTD baseline timestamp — on date-only
timestamps this is strict calendar-day precedence — while
`existedYesterday` is true iff the purchase timestamp is less than OR
EQUAL to the computed previous-trading-day timestamp: on a date-only
purchase timestamp against a yesterday timestamp carrying a time of
day, this is non-strict calendar-day precedence (a position purchased
on the previous trading day itself counts as existing yesterday).
Each flag depends only on the purchase timestamp and its own reference
date. -/
theorem claim_C10_flags :
    (∀ (p : PortfolioPosition) (ytdBaseTs : ℤ),
      existedBeforeYTD p ytdBaseTs = true ↔ p.purchaseTs < ytdBaseTs) ∧
    (∀ (p : PortfolioPosition) (yesterdayTs : ℤ),
      existedYesterday p yesterdayTs = true ↔ p.purchaseTs ≤ yesterdayTs) ∧
    (∀ purchaseDay baseDay : ℤ,
      dateOnlyTs purchaseDay < dateOnlyTs baseDay ↔ purchaseDay < baseDay) ∧
    (∀ purchaseDay yesterdayDay timeOfDay : ℤ,
      0 ≤ timeOfDay → timeOfDay < msPerDay →
      (dateOnlyTs purchaseDay ≤ dateOnlyTs yesterdayDay + timeOfDay ↔
        purchaseDay ≤ yesterdayDay)) := by
  refine ⟨fun p t => by simp [existedBeforeYTD],
    fun p t => by simp [existedYesterday], fun a b => ?_, fun a b tod h1 h2 => ?_⟩
  · simp only [dateOnlyTs, msPerDay]
    omega
  · simp only [dateOnlyTs, msPerDay] at h2 ⊢
    omega

/-- Witness for claim C10 at concrete inputs: a purchase on day 20466
is on-or-before a yesterday of day 20467 at 10:00. -/
theorem claim_C10_flags_witness :
    dateOnlyTs 20466 ≤ dateOnlyTs 20467 + 36000000 ↔ (20466 : ℤ) ≤ 20467 :=
  claim_C10_flags.2.2.2 20466 20467 36000000 (by norm_num)
    (by norm_num [msPerDay])

end FinRobot
